import Mathlib

/-
Verification of the schemdraw element-generator library
(schemdraw/elements/xform.py, misc.py, tubes.py).

Each element constructor is embedded as a pure Lean function producing the
element's drawing primitives ("segments"), its named anchor points and its
layout hints, mirroring the Python source line by line.  Python dicts are
modelled as association lists with Python's insertion-order update
semantics; Python floats are modelled as exact rationals where the source
only does field arithmetic, and as real numbers where the source calls
math.sqrt; a Python KeyError / ValueError is modelled with Except.
-/

namespace Schemdraw

/-- Python dict assignment `d[k] = v`: if the key is present its value is
replaced in place (keeping its position), otherwise the pair is appended. -/
def dictSet {α : Type} (d : List (String × α)) (k : String) (v : α) :
    List (String × α) :=
  match d with
  | [] => [(k, v)]
  | (k0, v0) :: rest =>
      if k0 = k then (k, v) :: rest else (k0, v0) :: dictSet rest k v

/-- Python dict lookup `d[k]`, returning `none` when the key is absent. -/
def dictLookup {α : Type} (d : List (String × α)) (k : String) : Option α :=
  match d with
  | [] => none
  | (k0, v0) :: rest => if k0 = k then some v0 else dictLookup rest k

/-- The keys of a dict, in insertion order (Python `list(d)`). -/
def dictKeys {α : Type} (d : List (String × α)) : List String :=
  d.map Prod.fst

/-- Python dict lookup that fails with a KeyError when the key is absent
(`d[k]` inside the label-drawing code). -/
def keyGet {α : Type} (d : List (String × α)) (k : String) : Except String α :=
  match dictLookup d k with
  | some v => .ok v
  | none => .error ("KeyError: " ++ k)

/-- Whether a fallible computation succeeded (Python: no exception was
raised). -/
def exceptOk {ε α : Type} : Except ε α → Bool
  | .ok _ => true
  | .error _ => false

namespace Xform

/-- Drawing primitives used by the Transformer element: plain line segments
and coil arcs (schemdraw.segments.Segment / SegmentArc). -/
inductive QSeg where
  | line (pts : List (ℚ × ℚ))
  | arc (center : ℚ × ℚ) (theta1 theta2 width height : ℚ)
  deriving DecidableEq, Repr

/-- The state of a constructed Transformer: its segments, its anchors dict,
and the private fields `_ltapx .. _t2_list` that `Transformer.tap` reads
(xform.py lines 115-120). -/
structure Xfmr where
  segments : List QSeg
  anchors : List (String × (ℚ × ℚ))
  ltapx : ℚ
  ltop : ℚ
  rtapx : ℚ
  rtop : ℚ
  ind_w : ℚ
  t2_list : List ℕ
  deriving DecidableEq, Repr

/-- Transformer.draw_coils (xform.py lines 147-173): `n` arcs of sweep
270°→90° (swapped when flipped), stacked one radius apart. -/
def drawCoils (n : ℕ) (ofst : ℚ × ℚ) (radius : ℚ) (flip : Bool) : List QSeg :=
  let theta1 : ℚ := if flip then 90 else 270
  let theta2 : ℚ := if flip then 270 else 90
  (List.range n).map fun i =>
    .arc (ofst.1, ofst.2 - (i * radius + radius / 2)) theta1 theta2 radius radius

/-- The primary-side tap placement of Transformer.tap (xform.py line 187). -/
def tapPrimary (xf : Xfmr) (name : String) (pos : ℤ) : Xfmr :=
  { xf with anchors := dictSet xf.anchors name (xf.ltapx, xf.ltop - (pos : ℚ) * xf.ind_w) }

/-- The secondary-side tap placement of Transformer.tap
(xform.py lines 189-193). -/
def tapSecondary (xf : Xfmr) (name : String) (pos : ℤ) (winding : ℕ) : Xfmr :=
  let y : ℚ :=
    xf.rtop - ((((xf.t2_list.take winding).sum : ℚ) + (winding : ℚ) + (pos : ℚ)) * xf.ind_w)
  { xf with anchors := dictSet xf.anchors name (xf.rtapx, y) }

/-- Transformer.tap (xform.py lines 175-196): a named anchor on one side of
the transformer; an unrecognized `side` raises
`ValueError(f"Undefined tap side {side}")`. -/
def tap (xf : Xfmr) (name : String) (pos : ℤ) (side : String) (winding : ℕ) :
    Except String Xfmr :=
  if side = "left" ∨ side = "primary" then
    .ok (tapPrimary xf name pos)
  else if side = "right" ∨ side = "secondary" then
    .ok (tapSecondary xf name pos winding)
  else
    .error ("Undefined tap side " ++ side)

/-- Transformer.__init__ (xform.py lines 30-131).  The `drawLoops` argument
abstracts `Transformer.draw_loops` (lines 133-145), whose point sequence
comes from the external curve helper `cycloid` (schemdraw twoterm module):
it returns the pair `(tapx, top)` together with the segment appended, for a
given loop count, offset and flip flag.  `ltaps` and `rtaps` model the
`ltaps=`/`rtaps=` keyword arguments (lines 122-131). -/
def transformer (t1 t2 : ℕ) (t2_listArg : Option (List ℕ)) (core loop : Bool)
    (drawLoops : ℕ → (ℚ × ℚ) → Bool → ((ℚ × ℚ) × QSeg))
    (ltaps : List (String × ℤ)) (rtaps : List (String × (ℤ ⊕ (ℕ × ℤ)))) :
    Xfmr :=
  let ind_w : ℚ := 0.4
  let lbot : ℚ := 0.0
  let ltop : ℚ := t1 * ind_w
  let t2_list : List ℕ := match t2_listArg with
    | none => [t2]
    | some l => l
  let t2q : ℚ := match t2_listArg with
    | none => (t2 : ℚ)
    | some l => (l.sum : ℚ) + l.length - 1
  let rtop : ℚ := (ltop + lbot) / 2 + t2q * ind_w / 2
  let rbot : ℚ := (ltop + lbot) / 2 - t2q * ind_w / 2
  let ind_gap : ℚ :=
    0.75 + (if loop then 0.4 else 0) + (if core then 0.25 else 0)
  let ltapx : ℚ := 0.0
  let rtapx : ℚ := ind_gap
  -- Draw primary windings
  let prim : (ℚ × ℚ) × List QSeg :=
    if loop then
      let r := drawLoops t1 (0, 0) false
      (r.1, [r.2])
    else
      ((ltapx, ltop), drawCoils t1 (0, ltop) ind_w false)
  let ltapx : ℚ := prim.1.1
  let ltop : ℚ := prim.1.2
  -- Draw secondary windings
  let sec : (ℚ × ℚ) × List QSeg :=
    if loop then
      t2_list.enum.foldl
        (fun acc ji =>
          let j := ji.1
          let r := drawLoops ji.2
            (ind_gap,
             (ltop - lbot) / 2 - (((t2_list.take j).sum : ℚ) + j) * ind_w / 2)
            true
          (r.1, acc.2 ++ [r.2]))
        ((rtapx, rtop), [])
    else
      ((rtapx, rtop),
       t2_list.enum.foldl
         (fun segs ji =>
           let j := ji.1
           segs ++
             drawCoils ji.2
               (ind_gap, rtop - (((t2_list.take j).sum : ℚ) + j) * ind_w)
               ind_w true)
         [])
  let rtapx : ℚ := sec.1.1
  let rtop : ℚ := sec.1.2
  -- Add the core
  let coreSegs : List QSeg :=
    if core then
      let top := max ltop rtop
      let bot := min lbot rbot
      let center := ind_gap / 2
      let core_w := ind_gap / 10
      [.line [(center - core_w, top), (center - core_w, bot)],
       .line [(center + core_w, top), (center + core_w, bot)]]
    else []
  let anchors0 := dictSet (dictSet [] "p1" ((0 : ℚ), ltop)) "p2" (0, lbot)
  let anchors : List (String × (ℚ × ℚ)) :=
    if t2_list.length = 1 then
      dictSet (dictSet anchors0 "s1" (ind_gap, rtop)) "s2" (ind_gap, rbot)
    else
      (List.range t2_list.length).foldl
        (fun a j =>
          dictSet
            (dictSet a ("s1_" ++ toString (j + 1))
              (ind_gap, rtop - (((t2_list.take j).sum : ℚ) + j) * ind_w))
            ("s2_" ++ toString (j + 1))
            (ind_gap, rtop - (((t2_list.take (j + 1)).sum : ℚ) + j) * ind_w))
        anchors0
  let xf : Xfmr :=
    { segments := prim.2 ++ sec.2 ++ coreSegs
      anchors := anchors
      ltapx := ltapx
      ltop := ltop
      rtapx := rtapx
      rtop := rtop
      ind_w := ind_w
      t2_list := t2_list }
  let xf := ltaps.foldl (fun x nt => tapPrimary x nt.1 nt.2) xf
  rtaps.foldl
    (fun x nt =>
      match nt.2 with
      | .inl pos => tapSecondary x nt.1 pos 0
      | .inr wp => tapSecondary x nt.1 wp.2 wp.1)
    xf

/-- A stand-in for the external cycloid-based `draw_loops`, used to
instantiate loop-independent statements at concrete inputs. -/
def dummyLoops : ℕ → (ℚ × ℚ) → Bool → ((ℚ × ℚ) × QSeg) :=
  fun _ ofst _ => (ofst, .line [ofst])

/-- The default Transformer: `Transformer()` with t1=4, t2=4, no t2_list,
core drawn, coil (non-loop) style, no constructor taps. -/
def xfDefault : Xfmr :=
  transformer 4 4 none true false dummyLoops [] []

end Xform

namespace Misc

/-- Drawing primitives used by AudioJack: polylines (with an optional arrow
decoration) and connector-dot circles (with fill style and z-order). -/
inductive JSeg where
  | line (pts : List (ℚ × ℚ)) (arrow : Option String)
  | circle (center : ℚ × ℚ) (r : ℚ) (fill : Option String) (zorder : ℕ)
  deriving DecidableEq, Repr

/-- A constructed AudioJack element: segments plus anchors. -/
structure Jack where
  segments : List JSeg
  anchors : List (String × (ℚ × ℚ))
  deriving DecidableEq, Repr

/-- The tip-contact base height (misc.py lines 132, 138-139): starts at 1.0
and is raised by 0.2 when a tip switch is present. -/
def audioTipy (switch : Bool) : ℚ :=
  if switch then 1.0 + 0.2 else 1.0

/-- The ring-contact base height (misc.py lines 133, 141-143): starts at 0.1
and is lowered by 0.2 when both a ring and a ring switch are present. -/
def audioRingy (ring ringswitch : Bool) : ℚ :=
  if ring && ringswitch then 0.1 - 0.2 else 0.1

/-- The sleeve-contact base height (misc.py lines 134, 141-143): starts at
0.35 and is raised by 0.2 when both a ring and a ring switch are present. -/
def audioSleevey (ring ringswitch : Bool) : ℚ :=
  if ring && ringswitch then 0.35 + 0.2 else 0.35

/-- AudioJack.__init__ (misc.py lines 112-244). -/
def audioJack (radius : ℚ)
    (ring ringswitch dots switch openStyle extendSleeve : Bool) : Jack :=
  let fill : Option String := if openStyle then some "bg" else none
  let length : ℚ := 2.0
  let ringlen : ℚ := 0.75
  let tiplen : ℚ := 0.55
  let swidth : ℚ := 0.2
  let sleeveheight : ℚ := 1.0
  let tipy : ℚ := audioTipy switch
  let ringy : ℚ := audioRingy ring ringswitch
  let sleevey : ℚ := audioSleevey ring ringswitch
  let swdy : ℚ := 0.4
  let swlen : ℚ := 0.5
  let sanchorx : ℚ := if extendSleeve then 0 else -length - swidth
  let ringSegs : List JSeg :=
    (if dots then
       [JSeg.circle
          (if extendSleeve then ((0 : ℚ), -sleevey)
           else (-length - swidth, -sleevey)) radius fill 4]
     else []) ++
    (if extendSleeve then
       [JSeg.line [(0, -sleevey), (-length, -sleevey)] none]
     else []) ++
    [JSeg.line
       [(-length, 0), (-length, sleeveheight), (-length - swidth, sleeveheight),
        (-length - swidth, 0), (-length, 0)] none] ++
    (if dots then [JSeg.circle (0, ringy) radius fill 4] else []) ++
    [JSeg.line
       [(-radius, ringy), (-length * 0.75, ringy),
        (-length * ringlen - 2 * radius, ringy + 2 * radius),
        (-length * ringlen - radius * 4, ringy)] none]
  let noRingSegs : List JSeg :=
    (if dots && extendSleeve then [JSeg.circle (0, 0) radius fill 4] else []) ++
    (if extendSleeve then
       [JSeg.line [(-radius, 0), (-length + swidth, 0)] none]
     else []) ++
    [JSeg.line
       [(-length + swidth, 0), (-length, 0), (-length, sleeveheight),
        (-length + swidth, sleeveheight), (-length + swidth, 0)] none]
  let tipSegs : List JSeg :=
    (if dots then [JSeg.circle (0, tipy) radius fill 4] else []) ++
    [JSeg.line
       [(-radius, tipy), (-length * 0.55, tipy),
        (-length * tiplen - 2 * radius, tipy - 2 * radius),
        (-length * tiplen - radius * 4, tipy)] none]
  let tipswitchSegs : List JSeg :=
    if switch then
      (if dots then [JSeg.circle (0, tipy - swdy) radius fill 4] else []) ++
      [JSeg.line [(0, tipy - swdy), (-swlen, tipy - swdy)] none,
       JSeg.line [(-swlen, tipy - swdy), (-swlen, tipy)] (some "->")]
    else []
  let ringswitchSegs : List JSeg :=
    if ring && ringswitch then
      (if dots then [JSeg.circle (0, ringy + swdy) radius fill 4] else []) ++
      [JSeg.line [(0, ringy + swdy), (-swlen, ringy + swdy)] none,
       JSeg.line [(-swlen, ringy + swdy), (-swlen, ringy)] (some "->")]
    else []
  let a0 : List (String × (ℚ × ℚ)) :=
    if ring then
      dictSet (dictSet [] "sleeve" (sanchorx, -sleevey)) "ring" ((0 : ℚ), ringy)
    else
      dictSet [] "sleeve" (sanchorx, (0 : ℚ))
  let a1 := dictSet a0 "tip" ((0 : ℚ), tipy)
  let a2 := if switch then dictSet a1 "tipswitch" ((0 : ℚ), tipy - swdy) else a1
  let a3 :=
    if ring && ringswitch then
      dictSet a2 "ringswitch" ((0 : ℚ), ringy + swdy)
    else a2
  { segments :=
      (if ring then ringSegs else noRingSegs) ++ tipSegs ++ tipswitchSegs ++
        ringswitchSegs
    anchors := a3 }

end Misc

namespace Tubes

/-- Tube geometry module constants (tubes.py lines 7-25). -/
def tr_d : ℝ := 2.5

/-- The tube envelope radius, half of tr_d (tubes.py line 8). -/
def tr_r : ℝ := 0.5 * tr_d

/-- The grid lead length (tubes.py line 10). -/
def grid_len : ℝ := 0.5 * tr_d

/-- The anode chord height above center (tubes.py line 12). -/
def anode_h : ℝ := 0.5 * tr_r

/-- The anode chord half-span, math.sqrt(tr_r**2 - anode_h**2)
(tubes.py line 13). -/
noncomputable def anode_len : ℝ := Real.sqrt (tr_r ^ 2 - anode_h ^ 2)

/-- The cathode chord height below center (tubes.py line 15). -/
def cathode_h : ℝ := anode_h

/-- The cathode chord half-span (tubes.py line 16). -/
noncomputable def cathode_len : ℝ := Real.sqrt (tr_r ^ 2 - cathode_h ^ 2)

/-- The cathode lead drop, math.sqrt(tr_r**2 - (cathode_len/2)**2)
(tubes.py line 17). -/
noncomputable def cathode_gap : ℝ := Real.sqrt (tr_r ^ 2 - (cathode_len / 2) ^ 2)

/-- The short cathode tail length (tubes.py line 18). -/
noncomputable def cathode_tail : ℝ := 1 / 2 * (cathode_gap - cathode_h)

/-- Angular overhang of a half-tube arc past the vertical split
(tubes.py line 20). -/
def half_overhang : ℝ := 12.5

/-- Gap between the two lobes of a dual triode (tubes.py line 22). -/
def dual_tr_gap : ℝ := 0.5 * tr_r

/-- Grid lead offset of a dual triode (tubes.py line 23). -/
def dual_tr_grid_offset : ℝ := 0.25

/-- Gap between the two stacked circles of a pentode (tubes.py line 25). -/
def pent_gap : ℝ := dual_tr_gap

/-- A value of a pin-number mapping: Python allows ints and strings here,
and `str` is applied when the label is drawn. -/
inductive PinVal where
  | int (n : ℤ)
  | str (s : String)
  deriving DecidableEq, Repr

/-- Python `str` applied to a pin-number value. -/
def pinStr : PinVal → String
  | .int n => toString n
  | .str s => s

/-- A pin-number mapping (the `pin_nums` dict). -/
abbrev PinMap := List (String × PinVal)

/-- Drawing primitives used by the tubes: line segments (optionally drawn
with dashed line style), arcs, and text labels. -/
inductive Seg where
  | line (pts : List (ℝ × ℝ)) (dashed : Bool)
  | arc (center : ℝ × ℝ) (width height theta1 theta2 : ℝ)
  | text (pos : ℝ × ℝ) (label : String)

/-- A constructed tube element: segments, anchors dict, params["drop"] and
the stored draw_heaters flag (the VacuumTube base also stores the raw
pin_nums / half constructor arguments as attributes; those are not part of
the drawn output). -/
structure TubeElem where
  segments : List Seg
  anchors : List (String × (ℝ × ℝ))
  drop : ℝ × ℝ
  drawHeaters : Bool

/-- The text labels among a segment list, in order. -/
def textLabels (segs : List Seg) : List String :=
  segs.filterMap fun s =>
    match s with
    | .text _ lbl => some lbl
    | _ => none

/-- The sign that mirrors grid/cathode placement: +1 for the right half,
-1 otherwise (tubes.py line 78). -/
def triodeHalfSign (half : Option String) : ℝ :=
  if half = some "right" then 1 else -1

/-- The envelope arc sweep of a triode: a full circle by default, a half
circle with overhang for "left"/"right" (tubes.py lines 81-85). -/
def triodeThetas (half : Option String) : ℝ × ℝ :=
  if half = some "left" then (90 - half_overhang, 270 + half_overhang)
  else if half = some "right" then (270 - half_overhang, 90 + half_overhang)
  else (0, 360)

/-- The pin-number labels of Triode (tubes.py lines 167-182), reading keys
"g", "a", "k" of the pin_nums dict (a missing key is a KeyError). -/
noncomputable def triodeLabels (pin_nums : Option PinMap) (hs : ℝ) :
    Except String (List Seg) :=
  match pin_nums with
  | none => .ok []
  | some m => do
      let g ← keyGet m "g"
      let a ← keyGet m "a"
      let k ← keyGet m "k"
      .ok [Seg.text ((tr_d - hs * grid_len) / 2 - hs * 0.2, tr_r) (pinStr g),
           Seg.text (tr_r - hs * 0.2, tr_r + anode_h + 0.3) (pinStr a),
           Seg.text (tr_r, tr_r - cathode_h - 0.3) (pinStr k)]

/-- Triode.__init__ (tubes.py lines 72-182). -/
noncomputable def triode (pin_nums : Option PinMap) (half : Option String)
    (heaters : Bool) : Except String TubeElem := do
  let hs := triodeHalfSign half
  let th := triodeThetas half
  let labels ← triodeLabels pin_nums hs
  let segs : List Seg :=
    [Seg.arc (tr_r, tr_r) tr_d tr_d th.1 th.2,
     Seg.line [((tr_d - grid_len) / 2, tr_r),
               ((tr_d - grid_len) / 2 + grid_len, tr_r)] true,
     Seg.line [(tr_r + hs * tr_r, tr_r),
               ((tr_d + hs * grid_len) / 2 + hs * 0.1, tr_r)] false,
     Seg.line [(tr_r - anode_len / 2, tr_r + anode_h),
               (tr_r + anode_len / 2, tr_r + anode_h)] false,
     Seg.line [(tr_r, tr_r + anode_h), (tr_r, tr_d)] false,
     Seg.line [(tr_r - cathode_len / 2, tr_r - cathode_h),
               (tr_r + cathode_len / 2, tr_r - cathode_h)] false,
     Seg.line [(tr_r - hs * cathode_len / 2, tr_r - cathode_h),
               (tr_r - hs * cathode_len / 2, tr_r - cathode_h - cathode_tail)]
       false,
     Seg.line [(tr_r + hs * cathode_len / 2, tr_r - cathode_h),
               (tr_r + hs * cathode_len / 2, tr_r - cathode_gap)] false]
  let anchors :=
    dictSet
      (dictSet (dictSet [] "g" (tr_r + hs * tr_r, tr_r)) "k"
        (tr_r + hs * cathode_len / 2, tr_r - cathode_gap))
      "a" (tr_r, tr_d)
  .ok { segments := segs ++ labels
        anchors := anchors
        drop := (tr_d, 0)
        drawHeaters := heaters }

/-- The pin-number labels of DualTriode (tubes.py lines 347-391), reading
keys "g1", "g2", "a1", "a2", "k1", "k2" in source order. -/
noncomputable def dualTriodeLabels (pin_nums : Option PinMap) : Except String (List Seg) :=
  match pin_nums with
  | none => .ok []
  | some m => do
      let g1 ← keyGet m "g1"
      let g2 ← keyGet m "g2"
      let a1 ← keyGet m "a1"
      let a2 ← keyGet m "a2"
      let k1 ← keyGet m "k1"
      let k2 ← keyGet m "k2"
      .ok [Seg.text (0.3, tr_r + 0.2) (pinStr g1),
           Seg.text (tr_d + dual_tr_gap - 0.3, tr_r + 0.2) (pinStr g2),
           Seg.text (tr_r - 0.2, tr_r + anode_h + 0.3) (pinStr a1),
           Seg.text (tr_r + dual_tr_gap + 0.2, tr_r + anode_h + 0.3)
             (pinStr a2),
           Seg.text (tr_r - cathode_gap / 2 + 0.3, tr_r - cathode_h - 0.3)
             (pinStr k1),
           Seg.text (tr_r + cathode_gap / 2 + dual_tr_gap - 0.3,
                     tr_r - cathode_h - 0.3) (pinStr k2)]

/-- DualTriode.__init__ (tubes.py lines 200-391). -/
noncomputable def dualTriode (pin_nums : Option PinMap) (heaters : Bool) :
    Except String TubeElem := do
  let labels ← dualTriodeLabels pin_nums
  let segs : List Seg :=
    [Seg.arc (tr_r, tr_r) tr_d tr_d 90 270,
     Seg.line [(tr_r, 0), (tr_r + dual_tr_gap, 0)] false,
     Seg.line [(tr_r, tr_d), (tr_r + dual_tr_gap, tr_d)] false,
     Seg.arc (tr_r + dual_tr_gap, tr_r) tr_d tr_d 270 90,
     Seg.line [(dual_tr_grid_offset + (tr_d - grid_len) / 2, tr_r),
               (dual_tr_grid_offset + (tr_d - grid_len) / 2 + 0.5 * grid_len,
                tr_r)] true,
     Seg.line [((tr_d + dual_tr_gap) -
                  (dual_tr_grid_offset + (tr_d - grid_len) / 2), tr_r),
               ((tr_d + dual_tr_gap) -
                  (dual_tr_grid_offset + (tr_d - grid_len) / 2 +
                    0.5 * grid_len), tr_r)] true,
     Seg.line [(tr_d + dual_tr_gap - (grid_len / 2) + 0.1 -
                  dual_tr_grid_offset, tr_r),
               (tr_d + dual_tr_gap, tr_r)] false,
     Seg.line [(0, tr_r),
               ((tr_d - grid_len) / 2 - 0.1 + dual_tr_grid_offset, tr_r)]
       false,
     Seg.line [(tr_r - anode_len / 2, tr_r + anode_h),
               (tr_r + anode_len / 2 + dual_tr_gap, tr_r + anode_h)] false,
     Seg.line [(tr_r, tr_r + anode_h), (tr_r, tr_d)] false,
     Seg.line [(tr_r + dual_tr_gap, tr_r + anode_h),
               (tr_r + dual_tr_gap, tr_d)] false,
     Seg.line [(tr_r - cathode_len / 2, tr_r - cathode_h),
               (tr_r + cathode_len / 2 + dual_tr_gap, tr_r - cathode_h)] false,
     Seg.line [(tr_r - cathode_len / 2, tr_r - cathode_h),
               (tr_r - cathode_len / 2, tr_r - cathode_gap)] false,
     Seg.line [(tr_r + cathode_len / 2 + dual_tr_gap, tr_r - cathode_h),
               (tr_r + cathode_len / 2 + dual_tr_gap, tr_r - cathode_gap)]
       false]
  let anchors :=
    dictSet
      (dictSet
        (dictSet
          (dictSet
            (dictSet (dictSet [] "g1" ((0 : ℝ), tr_r)) "g2"
              (tr_d + dual_tr_gap, tr_r))
            "k1" (tr_r - cathode_len / 2, tr_r - cathode_gap))
          "k2" (tr_r + cathode_len / 2 + dual_tr_gap, tr_r - cathode_gap))
        "a1" (tr_r - anode_len / 2, tr_d))
      "a2" (tr_r + anode_len / 2 + dual_tr_gap, tr_d)
  .ok { segments := segs ++ labels
        anchors := anchors
        drop := (tr_d + dual_tr_gap, 0)
        drawHeaters := heaters }

/-- The pin-number labels of Pentode (tubes.py lines 597-626), reading keys
"g1", "g2", "g3", "a", "k" of the pin_nums dict in source order (a missing
key is a KeyError). -/
noncomputable def pentodeLabels (pin_nums : Option PinMap) : Except String (List Seg) :=
  match pin_nums with
  | none => .ok []
  | some m => do
      let g1 ← keyGet m "g1"
      let g2 ← keyGet m "g2"
      let g3 ← keyGet m "g3"
      let a ← keyGet m "a"
      let k ← keyGet m "k"
      .ok [Seg.text (tr_r - grid_len / 2 - 0.2, tr_r) (pinStr g1),
           Seg.text (tr_d - grid_len / 2 + 0.2, tr_r + pent_gap / 2)
             (pinStr g2),
           Seg.text (tr_r - grid_len / 2 - 0.2, tr_r + pent_gap) (pinStr g3),
           Seg.text (tr_r + 0.2, tr_r + pent_gap + anode_h + 0.2) (pinStr a),
           Seg.text (tr_r, tr_r - cathode_h - 0.3) (pinStr k)]

/-- Pentode.__init__ (tubes.py lines 442-626). -/
noncomputable def pentode (pin_nums : Option PinMap) (heaters : Bool) :
    Except String TubeElem := do
  let labels ← pentodeLabels pin_nums
  let segs : List Seg :=
    [Seg.arc (tr_r, tr_r) tr_d tr_d 180 0,
     Seg.line [(0, tr_r), (0, tr_r + pent_gap)] false,
     Seg.line [(tr_d, tr_r), (tr_d, tr_r + pent_gap)] false,
     Seg.arc (tr_r, tr_r + pent_gap) tr_d tr_d 0 180,
     Seg.line [((tr_d - grid_len) / 2, tr_r), ((tr_d + grid_len) / 2, tr_r)]
       true,
     Seg.line [(tr_d, tr_r), ((tr_d + grid_len) / 2 + 0.1, tr_r)] false,
     Seg.line [((tr_d - grid_len) / 2, tr_r + pent_gap / 2),
               ((tr_d + grid_len) / 2, tr_r + pent_gap / 2)] true,
     Seg.line [(0, tr_r + pent_gap / 2),
               (grid_len / 2 - 0.1, tr_r + pent_gap / 2)] false,
     Seg.line [((tr_d - grid_len) / 2, tr_r + pent_gap),
               ((tr_d + grid_len) / 2, tr_r + pent_gap)] true,
     Seg.line [(tr_d, tr_r + pent_gap),
               ((tr_d + grid_len) / 2 + 0.1, tr_r + pent_gap)] false,
     Seg.line [(tr_r - anode_len / 2, tr_r + pent_gap + anode_h),
               (tr_r + anode_len / 2, tr_r + pent_gap + anode_h)] false,
     Seg.line [(tr_r, tr_r + pent_gap + anode_h), (tr_r, tr_d + pent_gap)]
       false,
     Seg.line [(tr_r - cathode_len / 2, tr_r - cathode_h),
               (tr_r + cathode_len / 2, tr_r - cathode_h)] false,
     Seg.line [(tr_r + cathode_len / 2, tr_r - cathode_h),
               (tr_r + cathode_len / 2, tr_r - cathode_h - cathode_tail)]
       false,
     Seg.line [(tr_r - cathode_len / 2, tr_r - cathode_h),
               (tr_r - cathode_len / 2, tr_r - cathode_gap)] false]
  let anchors :=
    dictSet
      (dictSet
        (dictSet
          (dictSet (dictSet [] "g1" (tr_d, tr_r)) "g2"
            ((0 : ℝ), tr_r + pent_gap / 2))
          "g3" (tr_d, tr_r + pent_gap))
        "k" (tr_r - cathode_len / 2, tr_r - cathode_gap))
      "a" (tr_r, tr_d + pent_gap)
  .ok { segments := segs ++ labels
        anchors := anchors
        drop := (tr_d, 0)
        drawHeaters := heaters }

/-- The pin-number preset of the KT66 factory (tubes.py line 635): the
suppressor grid g3 is mapped to the empty string. -/
def KT66pins : PinMap :=
  [("g1", .int 5), ("g2", .int 4), ("g3", .str ""), ("a", .int 3),
   ("k", .int 8)]

/-- KT66 (tubes.py lines 629-635): a Pentode with the KT66 pin preset. -/
noncomputable def KT66 (heaters : Bool) : Except String TubeElem :=
  pentode (some KT66pins) heaters

/-- The pin-number preset of the EL34 factory (tubes.py line 644). -/
def EL34pins : PinMap :=
  [("g1", .int 5), ("g2", .int 4), ("g3", .int 1), ("a", .int 3),
   ("k", .int 8)]

/-- VacuumTube.draw_heaters, the explicit heater-drawing method
(tubes.py lines 43-49): it reads `self.anchors["drop"]` (a KeyError for
every element built by these constructors, which set params["drop"] only)
and appends the two filament segments.  Heater segments are appended only
by this operation, never by the constructors. -/
noncomputable def drawHeatersOp (e : TubeElem) : Except String TubeElem := do
  let d ← keyGet e.anchors "drop"
  .ok { e with segments :=
          e.segments ++
            [Seg.line [(d.1 / 2 - 0.2, 0), (d.1, 0.2)] false,
             Seg.line [(d.1 / 2 + 0.2, 0), (d.1, 0.2)] false] }

/-- Horizontal reflection about the vertical centerline x = tr_r. -/
def reflectX (p : ℝ × ℝ) : ℝ × ℝ :=
  (2 * tr_r - p.1, p.2)

end Tubes

/-! Theorems.  First a few facts about the Python-dict model shared by the
claims below. -/

theorem dictLookup_dictSet_self {α : Type} (d : List (String × α)) (k : String)
    (v : α) : dictLookup (dictSet d k v) k = some v := by
  induction d with
  | nil => simp [dictSet, dictLookup]
  | cons kv rest ih =>
      obtain ⟨k0, v0⟩ := kv
      by_cases h : k0 = k
      · subst h
        simp [dictSet, dictLookup]
      · simp [dictSet, dictLookup, h, ih]

theorem dictLookup_dictSet_ne {α : Type} (d : List (String × α))
    (k k2 : String) (v : α) (h : k2 ≠ k) :
    dictLookup (dictSet d k v) k2 = dictLookup d k2 := by
  have h2 : ¬(k = k2) := fun e => h e.symm
  induction d with
  | nil => simp [dictSet, dictLookup, h2]
  | cons kv rest ih =>
      obtain ⟨k0, v0⟩ := kv
      by_cases h0 : k0 = k
      · subst h0
        simp [dictSet, dictLookup, h2]
      · simp [dictSet, dictLookup, h0, ih]

theorem dictKeys_dictSet {α : Type} (d : List (String × α)) (k : String)
    (v : α) :
    dictKeys (dictSet d k v) =
      if k ∈ dictKeys d then dictKeys d else dictKeys d ++ [k] := by
  induction d with
  | nil => simp [dictSet, dictKeys]
  | cons kv rest ih =>
      obtain ⟨k0, v0⟩ := kv
      by_cases h0 : k0 = k
      · subst h0
        simp [dictSet, dictKeys]
      · have hk0 : ¬(k = k0) := fun e => h0 e.symm
        simp only [dictKeys] at ih ⊢
        by_cases hm : k ∈ List.map Prod.fst rest
        · simp [dictSet, h0, hm, ih, hk0]
        · simp [dictSet, h0, hm, ih, hk0]

theorem dictKeys_dictSet_nodup {α : Type} (d : List (String × α)) (k : String)
    (v : α) (h : (dictKeys d).Nodup) : (dictKeys (dictSet d k v)).Nodup := by
  rw [dictKeys_dictSet]
  by_cases hm : k ∈ dictKeys d
  · simpa [hm] using h
  · rw [if_neg hm]
    refine List.Nodup.append h (List.nodup_singleton k) ?_
    intro a ha hb
    rw [List.mem_singleton] at hb
    subst hb
    exact hm ha

namespace Xform

/-- C1: for every Transformer and every tap call, a side outside
{"primary","left","secondary","right"} fails with a ValueError whose
message names the offending side, and every side inside that set
succeeds. -/
theorem tap_side_validation (xf : Xfmr) (name : String) (pos : ℤ)
    (winding : ℕ) (side : String) :
    (side ∉ (["primary", "left", "secondary", "right"] : List String) →
      tap xf name pos side winding =
        .error ("Undefined tap side " ++ side)) ∧
    (side ∈ (["primary", "left", "secondary", "right"] : List String) →
      ∃ xf2, tap xf name pos side winding = .ok xf2) := by
  constructor
  · intro h
    simp only [List.mem_cons, List.not_mem_nil, or_false, not_or] at h
    obtain ⟨h1, h2, h3, h4⟩ := h
    simp [tap, h1, h2, h3, h4]
  · intro h
    simp only [List.mem_cons, List.not_mem_nil, or_false] at h
    rcases h with h | h | h | h <;> subst h
    · exact ⟨tapPrimary xf name pos, rfl⟩
    · exact ⟨tapPrimary xf name pos, rfl⟩
    · exact ⟨tapSecondary xf name pos winding, rfl⟩
    · exact ⟨tapSecondary xf name pos winding, rfl⟩

/-- Witness for C1 at concrete inputs: side "sideways" is rejected with a
message naming it, side "primary" is accepted. -/
theorem tap_side_validation_witness :
    tap xfDefault "x" 2 "sideways" 0 =
      .error ("Undefined tap side " ++ "sideways") ∧
    ∃ xf2, tap xfDefault "x" 2 "primary" 0 = .ok xf2 :=
  ⟨(tap_side_validation xfDefault "x" 2 0 "sideways").1 (by decide),
   (tap_side_validation xfDefault "x" 2 0 "primary").2 (by decide)⟩

/-- C2: on the default-style Transformer with t1=4, tap("x", 2, "primary")
adds anchor "x" at (ltapx, ltop - 2*ind_w) = (0, 0.8); in general a
primary-side tap at turn `pos` lands at (ltapx, ltop - pos*ind_w). -/
theorem tap_primary_position :
    (∃ xf2, tap xfDefault "x" 2 "primary" 0 = .ok xf2 ∧
       dictLookup xf2.anchors "x" = some (0, 0.8) ∧
       xfDefault.ltapx = 0 ∧ xfDefault.ltop = 4 * (0.4 : ℚ) ∧
       xfDefault.ind_w = 0.4 ∧ (0.8 : ℚ) = 4 * 0.4 - 2 * 0.4) ∧
    (∀ (xf : Xfmr) (name : String) (pos : ℕ),
       ∃ xf2, tap xf name (pos : ℤ) "primary" 0 = .ok xf2 ∧
         dictLookup xf2.anchors name =
           some (xf.ltapx, xf.ltop - (pos : ℚ) * xf.ind_w)) := by
  constructor
  · refine ⟨tapPrimary xfDefault "x" 2, rfl, ?_, ?_, ?_, ?_, ?_⟩
    · norm_num [tapPrimary, xfDefault, transformer, dummyLoops, dictSet,
        dictLookup]
      rfl
    · norm_num [xfDefault, transformer, dummyLoops]
    · norm_num [xfDefault, transformer, dummyLoops]
    · norm_num [xfDefault, transformer, dummyLoops]
    · norm_num
  · intro xf name pos
    refine ⟨tapPrimary xf name (pos : ℤ), rfl, ?_⟩
    rw [tapPrimary, dictLookup_dictSet_self]
    push_cast
    ring_nf

/-- C3: t2_list=[2,3] yields secondary anchors s1_1,s2_1,s1_2,s2_2 and no
plain s1/s2, while t2_list=[4], or t2=4 with no list, yields exactly s1,s2;
this holds for both coil and loop styles and any loop-drawing helper. -/
theorem transformer_secondary_anchor_names :
    ∀ (t1 t2 : ℕ) (core loop : Bool)
      (dl : ℕ → (ℚ × ℚ) → Bool → ((ℚ × ℚ) × QSeg)),
      dictKeys (transformer t1 t2 (some [2, 3]) core loop dl [] []).anchors =
        ["p1", "p2", "s1_1", "s2_1", "s1_2", "s2_2"] ∧
      dictKeys (transformer t1 t2 (some [4]) core loop dl [] []).anchors =
        ["p1", "p2", "s1", "s2"] ∧
      dictKeys (transformer t1 4 none core loop dl [] []).anchors =
        ["p1", "p2", "s1", "s2"] := by
  intro t1 t2 core loop dl
  refine ⟨?_, ?_, ?_⟩ <;> cases loop <;> rfl

/-- Counterexample to C8 as stated: on the default Transformer, the
constructor defines anchor "p1" at (0, 1.6), and a tap named "p1" replaces
it with (0, 1.2) — the tap operation does overwrite an existing anchor. -/
theorem tap_overwrites_existing_anchor :
    dictLookup xfDefault.anchors "p1" = some (0, 8 / 5) ∧
    (match tap xfDefault "p1" 1 "primary" 0 with
     | .ok xf2 => dictLookup xf2.anchors "p1"
     | .error _ => none) = some (0, 6 / 5) ∧
    some ((0 : ℚ), (8 : ℚ) / 5) ≠ some ((0 : ℚ), (6 : ℚ) / 5) := by
  refine ⟨?_, ?_, ?_⟩
  · norm_num [xfDefault, transformer, dummyLoops, dictSet, dictLookup]
  · norm_num [tap, tapPrimary, xfDefault, transformer, dummyLoops, dictSet,
      dictLookup]
  · norm_num

/-- C8 (amended): anchor keys stay duplicate-free — the constructor defines
distinct names and tap preserves key-uniqueness — and a tap whose name is
not already present preserves every previously defined anchor; but a tap
reusing an existing name replaces that anchor rather than being rejected. -/
theorem anchor_keys_unique_tap_replaces :
    (dictKeys xfDefault.anchors).Nodup ∧
    (dictKeys
        (transformer 4 4 (some [2, 3]) true false dummyLoops [] []).anchors).Nodup ∧
    (∀ (xf : Xfmr) (name : String) (pos : ℤ) (side : String) (winding : ℕ)
        (xf2 : Xfmr), tap xf name pos side winding = .ok xf2 →
       (dictKeys xf.anchors).Nodup → (dictKeys xf2.anchors).Nodup) ∧
    (∀ (xf : Xfmr) (name : String) (pos : ℤ) (side : String) (winding : ℕ)
        (xf2 : Xfmr), tap xf name pos side winding = .ok xf2 →
       name ∉ dictKeys xf.anchors →
       ∀ k, k ∈ dictKeys xf.anchors →
         dictLookup xf2.anchors k = dictLookup xf.anchors k) := by
  refine ⟨by decide, by decide, ?_, ?_⟩
  · intro xf name pos side winding xf2 htap hnd
    rw [tap] at htap
    split at htap
    · cases htap
      exact dictKeys_dictSet_nodup _ _ _ hnd
    · split at htap
      · cases htap
        exact dictKeys_dictSet_nodup _ _ _ hnd
      · cases htap
  · intro xf name pos side winding xf2 htap hfresh k hk
    have hne : k ≠ name := fun e => hfresh (e ▸ hk)
    rw [tap] at htap
    split at htap
    · cases htap
      exact dictLookup_dictSet_ne _ _ _ _ hne
    · split at htap
      · cases htap
        exact dictLookup_dictSet_ne _ _ _ _ hne
      · cases htap

/-- Witness for C8 (amended) at concrete inputs: after a fresh-named tap on
the default Transformer the keys are still duplicate-free and the "p1"
anchor is untouched. -/
theorem anchor_keys_unique_tap_replaces_witness :
    (dictKeys (tapPrimary xfDefault "x" 1).anchors).Nodup ∧
    dictLookup (tapPrimary xfDefault "x" 1).anchors "p1" =
      dictLookup xfDefault.anchors "p1" :=
  ⟨(anchor_keys_unique_tap_replaces).2.2.1 xfDefault "x" 1 "primary" 0
      (tapPrimary xfDefault "x" 1) rfl (by decide),
   (anchor_keys_unique_tap_replaces).2.2.2 xfDefault "x" 1 "primary" 0
      (tapPrimary xfDefault "x" 1) rfl (by decide) "p1" (by decide)⟩

end Xform

namespace Misc

/-- The anchor keys of an AudioJack, by case split on the feature flags. -/
theorem audioJack_keys (radius : ℚ)
    (ring ringswitch dots switch openStyle extendSleeve : Bool) :
    dictKeys (audioJack radius ring ringswitch dots switch openStyle
        extendSleeve).anchors =
      (if ring then ["sleeve", "ring"] else ["sleeve"]) ++ ["tip"] ++
        (if switch then ["tipswitch"] else []) ++
        (if ring && ringswitch then ["ringswitch"] else []) := by
  cases ring <;> cases ringswitch <;> cases switch <;> rfl

/-- C5: AudioJack produces exactly the anchors sleeve and tip always, ring
iff ring, tipswitch iff switch, and ringswitch iff both ring and
ringswitch; the tip anchor sits at the tip base height, which a switch
raises from 1.0 to 1.2, while ring together with ringswitch raises the
sleeve base height from 0.35 to 0.55 and lowers the ring base height from
0.1 to -0.1. -/
theorem audioJack_anchor_set_and_offsets :
    ∀ (radius : ℚ) (ring ringswitch dots switch openStyle extendSleeve : Bool),
      (∀ name : String,
        name ∈ dictKeys (audioJack radius ring ringswitch dots switch
            openStyle extendSleeve).anchors ↔
          (name = "sleeve" ∨ name = "tip" ∨ (name = "ring" ∧ ring = true) ∨
           (name = "tipswitch" ∧ switch = true) ∨
           (name = "ringswitch" ∧ ring = true ∧ ringswitch = true))) ∧
      dictLookup (audioJack radius ring ringswitch dots switch openStyle
          extendSleeve).anchors "tip" = some (0, audioTipy switch) ∧
      audioTipy true = 1.2 ∧ audioTipy false = 1.0 ∧
      audioSleevey true true = 0.55 ∧ audioSleevey ring false = 0.35 ∧
      audioSleevey false ringswitch = 0.35 ∧
      audioRingy true true = -0.1 ∧ audioRingy ring false = 0.1 ∧
      audioRingy false ringswitch = 0.1 := by
  intro radius ring ringswitch dots switch openStyle extendSleeve
  refine ⟨?_, ?_, ?_, ?_, ?_, ?_, ?_, ?_, ?_, ?_⟩
  · intro name
    rw [audioJack_keys]
    cases ring <;> cases ringswitch <;> cases switch <;> simp <;> tauto
  · cases ring <;> cases ringswitch <;> cases switch <;> rfl
  · norm_num [audioTipy]
  · norm_num [audioTipy]
  · norm_num [audioSleevey]
  · cases ring <;> norm_num [audioSleevey]
  · cases ringswitch <;> norm_num [audioSleevey]
  · norm_num [audioRingy]
  · cases ring <;> norm_num [audioRingy]
  · cases ringswitch <;> norm_num [audioRingy]

end Misc

namespace Tubes

/-- Looking up "g" in the triode anchors dict, for any anchor values. -/
theorem triode_lookup_g (vg vk va : ℝ × ℝ) :
    dictLookup (dictSet (dictSet (dictSet [] "g" vg) "k" vk) "a" va) "g" =
      some vg := rfl

/-- Looking up "k" in the triode anchors dict, for any anchor values. -/
theorem triode_lookup_k (vg vk va : ℝ × ℝ) :
    dictLookup (dictSet (dictSet (dictSet [] "g" vg) "k" vk) "a" va) "k" =
      some vk := rfl

/-- Looking up "a" in the triode anchors dict, for any anchor values. -/
theorem triode_lookup_a (vg vk va : ℝ × ℝ) :
    dictLookup (dictSet (dictSet (dictSet [] "g" vg) "k" vk) "a" va) "a" =
      some va := rfl

/-- C6: the derived tube constants satisfy their defining right-triangle
relations exactly (hence within any floating-point tolerance such as 1e-9):
cathode_gap² = tr_r² - (cathode_len/2)², with tr_r = 1.25,
cathode_h = 0.5·tr_r, cathode_len = sqrt(tr_r² - cathode_h²), and
anode_len² = tr_r² - anode_h². -/
theorem tube_constant_relations :
    cathode_gap ^ 2 = tr_r ^ 2 - (cathode_len / 2) ^ 2 ∧
    |cathode_gap ^ 2 - (tr_r ^ 2 - (cathode_len / 2) ^ 2)| ≤ 1e-9 ∧
    tr_r = 1.25 ∧ cathode_h = 0.5 * tr_r ∧
    cathode_len = Real.sqrt (tr_r ^ 2 - cathode_h ^ 2) ∧
    anode_len ^ 2 = tr_r ^ 2 - anode_h ^ 2 := by
  have hch : (0 : ℝ) ≤ tr_r ^ 2 - cathode_h ^ 2 := by
    norm_num [tr_r, tr_d, cathode_h, anode_h]
  have hcl : cathode_len ^ 2 = tr_r ^ 2 - cathode_h ^ 2 := by
    unfold cathode_len
    exact Real.sq_sqrt hch
  have hgap0 : tr_r ^ 2 - (cathode_len / 2) ^ 2 = 1.26953125 := by
    rw [div_pow, hcl]
    norm_num [tr_r, tr_d, cathode_h, anode_h]
  have h2 : cathode_gap ^ 2 = tr_r ^ 2 - (cathode_len / 2) ^ 2 := by
    unfold cathode_gap
    refine Real.sq_sqrt ?_
    rw [hgap0]
    norm_num
  have ha : anode_len ^ 2 = tr_r ^ 2 - anode_h ^ 2 := by
    unfold anode_len
    refine Real.sq_sqrt ?_
    norm_num [tr_r, tr_d, anode_h]
  refine ⟨h2, ?_, ?_, rfl, rfl, ha⟩
  · rw [h2]
    simp
    norm_num
  · norm_num [tr_r, tr_d]

/-- C4: for matching construction parameters, the right-half Triode's g and
k anchors are the horizontal reflections (about the vertical centerline
x = tr_r) of the left-half Triode's g and k anchors, and the a anchor
(tr_r, tr_d) lies on the reflection axis. -/
theorem triode_half_mirror :
    ∀ (p : Option PinMap) (heaters : Bool),
      (triode p (some "right") heaters).map
          (fun e => (dictLookup e.anchors "g", dictLookup e.anchors "k",
                     dictLookup e.anchors "a")) =
        (triode p (some "left") heaters).map
          (fun e => ((dictLookup e.anchors "g").map reflectX,
                     (dictLookup e.anchors "k").map reflectX,
                     dictLookup e.anchors "a")) ∧
      (triode p (some "left") heaters).map
          (fun e => dictLookup e.anchors "a") =
        (triode p (some "left") heaters).map
          (fun _ => some (tr_r, tr_d)) ∧
      reflectX (tr_r, tr_d) = (tr_r, tr_d) := by
  intro p heaters
  have hsr : triodeHalfSign (some "right") = 1 := rfl
  have hsl : triodeHalfSign (some "left") = -1 := rfl
  have hrefl : reflectX (tr_r, tr_d) = (tr_r, tr_d) := by
    simp [reflectX]
    ring
  refine ⟨?_, ?_, hrefl⟩
  · cases p with
    | none =>
        simp [triode, triodeLabels, Except.bind, Except.map, Bind.bind, hsr,
          hsl, triode_lookup_g, triode_lookup_k, triode_lookup_a, reflectX]
        exact ⟨by ring, by ring⟩
    | some m =>
        rcases hg : dictLookup m "g" with _ | g <;>
          rcases ha : dictLookup m "a" with _ | a <;>
            rcases hk : dictLookup m "k" with _ | k <;>
              simp [triode, triodeLabels, keyGet, Except.bind, Except.map,
                Bind.bind, hg, ha, hk, hsr, hsl, triode_lookup_g,
                triode_lookup_k, triode_lookup_a, reflectX]
        exact ⟨by ring, by ring⟩
  · cases p with
    | none =>
        simp [triode, triodeLabels, Except.bind, Except.map, Bind.bind, hsl,
          triode_lookup_a]
    | some m =>
        rcases hg : dictLookup m "g" with _ | g <;>
          rcases ha : dictLookup m "a" with _ | a <;>
            rcases hk : dictLookup m "k" with _ | k <;>
              simp [triode, triodeLabels, keyGet, Except.bind, Except.map,
                Bind.bind, hg, ha, hk, hsl, triode_lookup_a]

/-- C10: the Triode half selector is not validated — for every half other
than "left" and "right" construction succeeds, half_sign is -1, the
envelope is the full circle (theta1=0, theta2=360), and the segments and
anchors coincide with the default (half=None) construction. -/
theorem triode_half_unvalidated :
    ∀ (p : Option PinMap) (heaters : Bool) (half : Option String),
      half ≠ some "left" → half ≠ some "right" →
      triodeHalfSign half = -1 ∧ triodeThetas half = (0, 360) ∧
      (triode p half heaters).map TubeElem.segments =
        (triode p none heaters).map TubeElem.segments ∧
      (triode p half heaters).map TubeElem.anchors =
        (triode p none heaters).map TubeElem.anchors := by
  intro p heaters half h1 h2
  have hs : triodeHalfSign half = -1 := by
    simp [triodeHalfSign, h2]
  have ht : triodeThetas half = (0, 360) := by
    simp [triodeThetas, h1, h2]
  have hnone : triodeHalfSign none = -1 := rfl
  have htnone : triodeThetas none = (0, 360) := rfl
  refine ⟨hs, ht, ?_, ?_⟩ <;>
    simp [triode, hs, ht, hnone, htnone]

/-- Witness for C10 at the concrete unrecognized selector "center" (with no
pin numbers and the heater flag off). -/
theorem triode_half_unvalidated_witness :
    triodeHalfSign (some "center") = -1 ∧
    triodeThetas (some "center") = (0, 360) ∧
    (triode none (some "center") false).map TubeElem.segments =
      (triode none none false).map TubeElem.segments ∧
    (triode none (some "center") false).map TubeElem.anchors =
      (triode none none false).map TubeElem.anchors :=
  triode_half_unvalidated none false (some "center") (by decide) (by decide)

/-- C9: the draw_heaters flag has no effect on the constructed geometry:
for Triode, DualTriode and Pentode, construction with the flag on yields
the same segments, anchors and drop as with the flag off (heater filaments
are appended only by the explicit draw-heaters operation). -/
theorem heaters_flag_no_geometry_effect :
    ∀ (p : Option PinMap) (half : Option String) (m : Option PinMap),
      (triode p half true).map (fun e => (e.segments, e.anchors, e.drop)) =
        (triode p half false).map (fun e => (e.segments, e.anchors, e.drop)) ∧
      (dualTriode p true).map (fun e => (e.segments, e.anchors, e.drop)) =
        (dualTriode p false).map (fun e => (e.segments, e.anchors, e.drop)) ∧
      (pentode m true).map (fun e => (e.segments, e.anchors, e.drop)) =
        (pentode m false).map (fun e => (e.segments, e.anchors, e.drop)) := by
  intro p half m
  refine ⟨?_, ?_, ?_⟩
  · cases hl : triodeLabels p (triodeHalfSign half) <;>
      simp [triode, hl, Except.bind, Except.map, Bind.bind]
  · cases hl : dualTriodeLabels p <;>
      simp [dualTriode, hl, Except.bind, Except.map, Bind.bind]
  · cases hl : pentodeLabels m <;>
      simp [pentode, hl, Except.bind, Except.map, Bind.bind]

/-- Counterexample to C7 as stated: a Pentode whose pin_nums mapping omits
the "g3" key does not construct without error — it fails with the KeyError
for "g3" (so nothing is drawn at all, rather than "no g3 label"). -/
theorem pentode_missing_g3_raises :
    pentode (some [("g1", PinVal.int 5), ("g2", PinVal.int 4),
        ("a", PinVal.int 3), ("k", PinVal.int 8)]) false =
      .error "KeyError: g3" := rfl

/-- C7 (amended): the KT66 preset (g3 mapped to the empty string) draws the
text labels "5", "4", "", "3", "8" — the g3 label primitive carries the
empty string — while a pin_nums mapping lacking the "g3" key makes the
construction fail with a key-lookup error instead of drawing without a g3
label. -/
theorem pentode_g3_empty_label :
    (pentode (some KT66pins) false).map (fun e => textLabels e.segments) =
      .ok ["5", "4", "", "3", "8"] ∧
    (KT66 false).map (fun e => textLabels e.segments) =
      .ok ["5", "4", "", "3", "8"] ∧
    (∀ m : PinMap, dictLookup m "g3" = none →
      exceptOk (pentode (some m) false) = false) := by
  refine ⟨rfl, rfl, ?_⟩
  intro m hm
  rcases hg1 : dictLookup m "g1" with _ | g1 <;>
    rcases hg2 : dictLookup m "g2" with _ | g2 <;>
      simp [pentode, pentodeLabels, keyGet, hg1, hg2, hm, Except.bind,
        Except.map, Bind.bind, exceptOk]

/-- Witness for C7 (amended) at the concrete KT66-like mapping with the
"g3" key omitted: construction does not succeed. -/
theorem pentode_g3_empty_label_witness :
    exceptOk (pentode (some [("g1", PinVal.int 5), ("g2", PinVal.int 4),
        ("a", PinVal.int 3), ("k", PinVal.int 8)]) false) = false :=
  pentode_g3_empty_label.2.2
    [("g1", PinVal.int 5), ("g2", PinVal.int 4), ("a", PinVal.int 3),
     ("k", PinVal.int 8)] (by decide)

end Tubes

end Schemdraw
